import Mathlib

/-!
Verification development for the extensible asynchronous command server
(src/src/server.cpp, handler.cpp, main.cpp, plugin.cpp, Config.cpp,
src/plugins/echo_plugin.cpp).

The shallow embedding models one connection's read/dispatch/write cycle as a
pure function over the sequence of decoded lines the peer delivers.  JSON
values are represented by an inductive type; the outcome of nlohmann:\x7b\x7d
json::parse on a raw line is represented by an `Option Json` (none = the line
is not valid JSON).  Handlers are functions from the payload string to the
list of observable effects they perform (messages sent on the connection,
calls into the session store).
-/

/-- JSON values as stored by nlohmann::json after a successful parse.
Objects are key/value lists; the parser yields keys sorted and unique
(std::map), which the concrete inputs below respect. -/
inductive Json where
  | null : Json
  | bool (b : Bool) : Json
  | num (n : Int) : Json
  | str (s : String) : Json
  | arr (elems : List Json) : Json
  | obj (members : List (String × Json)) : Json
deriving Repr

/-- js.at(key) for an object: the mapped value; on a non-object, or when the
key is absent, nlohmann's at() throws, modelled as none. -/
def Json.atKey : Json → String → Option Json
  | .obj members, key => lookupMember members key
  | _, _ => none
where
  lookupMember : List (String × Json) → String → Option Json
  | [], _ => none
  | (k, v) :: rest, key => if k = key then some v else lookupMember rest key

/-- get<std::string>(): succeeds only on a JSON string, otherwise throws
(modelled as none). -/
def Json.asString : Json → Option String
  | .str s => some s
  | _ => none

/-- True exactly on JSON objects. -/
def Json.isObj : Json → Bool
  | .obj _ => true
  | _ => false

/-- String escaping used by nlohmann dump() for the characters that can occur
in the payloads considered here. -/
def jsonEscapeChar (c : Char) : String :=
  if c = '"' then "\\\""
  else if c = '\\' then "\\\\"
  else if c = '\n' then "\\n"
  else if c = '\t' then "\\t"
  else if c = '\r' then "\\r"
  else String.singleton c

def jsonEscape (s : String) : String :=
  String.join (s.toList.map jsonEscapeChar)

/-- Comma-join, as in compact dump() output. -/
def joinComma : List String → String
  | [] => ""
  | [s] => s
  | s :: rest => s ++ "," ++ joinComma rest

mutual

/-- js.dump(): compact re-serialization of a decoded value, as used by
handler::parse_msg to build the payload handed to handlers. -/
def Json.dump : Json → String
  | .null => "null"
  | .bool b => if b then "true" else "false"
  | .num n => toString n
  | .str s => "\"" ++ jsonEscape s ++ "\""
  | .arr elems => "[" ++ dumpElems elems ++ "]"
  | .obj members => "\x7b" ++ dumpMembers members ++ "\x7d"

def Json.dumpElems : List Json → String
  | [] => ""
  | [v] => Json.dump v
  | v :: rest => Json.dump v ++ "," ++ Json.dumpElems rest

def Json.dumpMembers : List (String × Json) → String
  | [] => ""
  | [(k, v)] => "\"" ++ jsonEscape k ++ "\":" ++ Json.dump v
  | (k, v) :: rest =>
      "\"" ++ jsonEscape k ++ "\":" ++ Json.dump v ++ "," ++ Json.dumpMembers rest

end

/-- handler::parse_msg (src/src/handler.cpp): given the parse outcome of the
raw line (none = json::parse threw), extract cmd via at("cmd").get<string>()
and set payload = js.dump(); any exception is caught and the function
returns false (modelled as none). -/
def parse_msg (decoded : Option Json) : Option (String × String) :=
  match decoded with
  | none => none
  | some js =>
    match js.atKey "cmd" with
    | none => none
    | some v =>
      match v.asString with
      | none => none
      | some cmd => some (cmd, js.dump)

/-- Observable effects of handling one line on a connection: a message
written back via Connection::send, or a call Redis::set(key, val) into the
session store. -/
inductive Effect where
  | sent (msg : String) : Effect
  | storeSet (key : String) (val : String) : Effect
deriving Repr, DecidableEq

/-- A handler body: from the payload string to the effects it performs. -/
def Handler : Type := String → List Effect

/-- Server::handlers_ : the command registry, keyed by command name.  The
C++ container is std::unordered_map; keys are unique. -/
def Registry (H : Type) : Type := List (String × H)

/-- Server::add_handler: handlers_[cmd] = fn — insert or replace. -/
def add_handler {H : Type} : Registry H → String → H → Registry H
  | [], cmd, h => [(cmd, h)]
  | (k, v) :: rest, cmd, h =>
      if k = cmd then (cmd, h) :: rest else (k, v) :: add_handler rest cmd h

/-- handlers_.find(cmd). -/
def findHandler {H : Type} : Registry H → String → Option H
  | [], _ => none
  | (k, v) :: rest, cmd => if k = cmd then some v else findHandler rest cmd

/-- The decision Connection::do_read makes for one decoded line. -/
inductive DispatchResult (H : Type) where
  | malformed : DispatchResult H
  | unknown : DispatchResult H
  | invoke (h : H) (payload : String) : DispatchResult H

/-- The dispatch logic of Connection::do_read (src/src/server.cpp): parse the
line; on failure reply malformed; otherwise look up cmd in the registry and
either invoke the handler with the payload or reply unknown command. -/
def do_dispatch {H : Type} (reg : Registry H) (decoded : Option Json) :
    DispatchResult H :=
  match parse_msg decoded with
  | none => .malformed
  | some (cmd, payload) =>
    match findHandler reg cmd with
    | some h => .invoke h payload
    | none => .unknown

/-- Effects produced by handling one line: the error replies are sent on the
connection; a found handler runs synchronously on the payload. -/
def runLine (reg : Registry Handler) (decoded : Option Json) : List Effect :=
  match do_dispatch reg decoded with
  | .malformed => [.sent "error: malformed\n"]
  | .unknown => [.sent "error: unknown command\n"]
  | .invoke h payload => h payload

/-- What async_read_until delivers on one completion: a decoded line, or a
read error (ec set). -/
inductive ReadEv where
  | line (decoded : Option Json) : ReadEv
  | readErr : ReadEv

/-- Connection::do_read as a loop over read completions: each successful read
handles the line and re-arms do_read; a read error logs and closes the
connection (no further reads).  Returns the effect trace and whether the
connection was closed. -/
def connLoop (reg : Registry Handler) : List ReadEv → List Effect × Bool
  | [] => ([], false)
  | .line decoded :: rest =>
      let r := connLoop reg rest
      (runLine reg decoded ++ r.1, r.2)
  | .readErr :: _ => ([], true)

/-- The built-in login handler registered in main (src/src/main.cpp):
token = payload (the full payload string, unparsed — the code comments this
as a simplification); call Redis set("sess:" + token, "valid") and reply ok
or fail depending on whether the store accepted the write.  `storeAccepts`
is the external store's accept/reject behaviour. -/
def login_handler (storeAccepts : String → String → Bool) : Handler :=
  fun payload =>
    let key := "sess:" ++ payload
    [.storeSet key "valid",
     .sent (if storeAccepts key "valid" then "login: ok\n" else "login: fail\n")]

/-- The handler the echo plugin registers (src/plugins/echo_plugin.cpp):
conn.send("echo: " + payload + "\n"). -/
def echo_handler : Handler :=
  fun payload => [.sent ("echo: " ++ payload ++ "\n")]

/-- EchoPlugin::init: server.add_handler("echo", ...). -/
def echoPluginInit (reg : Registry Handler) : Registry Handler :=
  add_handler reg "echo" echo_handler

/-- A plugin's init hook, as main invokes it: it mutates the server's
registry, or throws (modelled by Except). -/
def PluginInitFn : Type := Registry Handler → Except String (Registry Handler)

/-- The plugin-initialization loop in main (src/src/main.cpp):
for each loaded plugin, create() then init(srv).  There is no try/catch
inside the loop, so the first exception propagates immediately (the
remaining plugins are not initialized); main's top-level catch then logs
and returns EXIT_FAILURE. -/
def init_plugins (reg : Registry Handler) :
    List PluginInitFn → Except String (Registry Handler)
  | [] => .ok reg
  | p :: ps =>
    match p reg with
    | .ok reg2 => init_plugins reg2 ps
    | .error e => .error e

/-- Outcome of one module in load_plugins (src/src/plugin.cpp): dlopen may
fail, dlsym("create_plugin") may fail, or the module yields an init hook. -/
inductive ModuleLoad where
  | openFail : ModuleLoad
  | symbolMissing : ModuleLoad
  | loaded (initFn : PluginInitFn) : ModuleLoad

/-- load_plugins: modules that fail to open or lack the factory symbol are
logged and skipped (continue); the rest are collected in order. -/
def load_plugins : List ModuleLoad → List PluginInitFn
  | [] => []
  | .openFail :: rest => load_plugins rest
  | .symbolMissing :: rest => load_plugins rest
  | .loaded f :: rest => f :: load_plugins rest

/-- Exit status of main's top-level try/catch around startup: an escaped
exception yields EXIT_FAILURE ( = 1); otherwise the server runs. -/
def exitCodeOf {α : Type} : Except String α → Nat
  | .ok _ => 0
  | .error _ => 1

/-- One completion of the accept callback in Server::do_accept: a successful
accept (a new connection, tagged by an id) or a failed one (error code). -/
inductive AcceptEv where
  | ok (connId : Nat) : AcceptEv
  | err (code : Nat) : AcceptEv

/-- Server::do_accept as a loop over accept completions: on success a
Connection is constructed and started; on failure the error is logged; in
both cases do_accept() re-arms unconditionally.  Returns the connections
started and the error codes logged. -/
def do_accept : List AcceptEv → List Nat × List Nat
  | [] => ([], [])
  | .ok connId :: rest =>
      let r := do_accept rest
      (connId :: r.1, r.2)
  | .err code :: rest =>
      let r := do_accept rest
      (r.1, code :: r.2)

/-- The configuration file as seen by Config::load (src/src/Config.cpp):
it may fail to open, fail to parse as JSON (ifs >> j_ throws), or yield a
decoded document. -/
inductive ConfigFile where
  | unopenable : ConfigFile
  | notJson : ConfigFile
  | parsed (j : Json) : ConfigFile

/-- Config::load: throws if the file cannot be opened; operator>> throws on
invalid JSON; otherwise the document is stored. -/
def Config.load : ConfigFile → Except String Json
  | .unopenable => .error "Failed to open config file"
  | .notJson => .error "parse error"
  | .parsed j => .ok j

/-- Config::get: j_.at(key).get<std::string>() — at() throws when the key is
absent, get<string>() throws when the value is not a string. -/
def Config.get (j : Json) (key : String) : Except String String :=
  match j.atKey key with
  | some v =>
    match v.asString with
    | some s => .ok s
    | none => .error "type_error"
  | none => .error "out_of_range"

/-- std::stoi on the port string, modelled at the inputs startup uses:
a decimal integer parses, anything non-numeric throws. -/
def stoiE (s : String) : Except String Int :=
  match s.toInt? with
  | some n => .ok n
  | none => .error "stoi"

/-- The Server constructor arguments main computes from configuration; the
Server (and its acceptor) is only constructed once these succeed. -/
structure ServerCtor where
  host : String
  port : Int
deriving Repr, DecidableEq

/-- The configuration-dependent prefix of main (src/src/main.cpp): load the
config, read host and port, convert the port; any exception propagates to
the top-level catch, so no Server is constructed. -/
def mainStartup (cfg : ConfigFile) : Except String ServerCtor := do
  let j ← Config.load cfg
  let host ← Config.get j "host"
  let portStr ← Config.get j "port"
  let port ← stoiE portStr
  return ⟨host, port⟩

/-- Pattern matches at the head of the text. -/
def matchesAt : List Char → List Char → Bool
  | [], _ => true
  | _ :: _, [] => false
  | p :: ps, c :: cs => p == c && matchesAt ps cs

/-- Pattern occurs somewhere in the text. -/
def charsContain : List Char → List Char → Bool
  | [], pat => matchesAt pat []
  | c :: rest, pat => matchesAt pat (c :: rest) || charsContain rest pat

/-- The substring test used to state the echo scenario. -/
def strContains (s pat : String) : Bool :=
  charsContain s.toList pat.toList

/-- The login message of the spec scenario, as decoded by json::parse. -/
def loginMsg : Json :=
  Json.obj [("cmd", Json.str "login"), ("token", Json.str "abc")]

/-- The echo message of the spec scenario, as decoded by json::parse. -/
def echoMsg : Json :=
  Json.obj [("cmd", Json.str "echo"), ("msg", Json.str "hi")]

/-- A session store that accepts every write. -/
def acceptingStore : String → String → Bool := fun _ _ => true

/-- The registry after main registers the built-in login handler. -/
def loginReg : Registry Handler :=
  add_handler [] "login" (login_handler acceptingStore)

/-- The registry after the echo plugin has run its init hook. -/
def echoReg : Registry Handler := echoPluginInit []

/-- A plugin whose init hook throws. -/
def badInit : PluginInitFn := fun _ => .error "init failed"

/-- A plugin whose init hook registers the echo handler. -/
def goodEchoInit : PluginInitFn := fun reg => .ok (echoPluginInit reg)

/-! ### Helper lemmas -/

theorem findHandler_add_self {H : Type} (reg : Registry H) (cmd : String)
    (h : H) : findHandler (add_handler reg cmd h) cmd = some h := by
  induction reg with
  | nil => simp [add_handler, findHandler]
  | cons kv rest ih =>
    obtain ⟨k, v⟩ := kv
    by_cases hk : k = cmd
    · simp [add_handler, hk, findHandler]
    · simp [add_handler, hk, findHandler, ih]

theorem runLine_malformed (reg : Registry Handler) (decoded : Option Json)
    (hp : parse_msg decoded = none) :
    runLine reg decoded = [Effect.sent "error: malformed\n"] := by
  simp [runLine, do_dispatch, hp]

theorem connLoop_cons_line (reg : Registry Handler) (decoded : Option Json)
    (rest : List ReadEv) :
    connLoop reg (ReadEv.line decoded :: rest)
      = (runLine reg decoded ++ (connLoop reg rest).1, (connLoop reg rest).2) :=
  rfl

theorem atKey_of_not_obj (js : Json) (key : String)
    (h : js.isObj = false) : js.atKey key = none := by
  cases js <;> simp_all [Json.isObj, Json.atKey]

theorem do_accept_append (xs ys : List AcceptEv) :
    do_accept (xs ++ ys)
      = ((do_accept xs).1 ++ (do_accept ys).1,
         (do_accept xs).2 ++ (do_accept ys).2) := by
  induction xs with
  | nil => simp [do_accept]
  | cons x rest ih => cases x <;> simp [do_accept, ih]

/-! ### Claim theorems -/

/-- C1: for every line decoding to a JSON object whose cmd field is a string
naming a registered handler, do_read dispatches to exactly that handler,
synchronously, with payload = the full decoded envelope re-serialized
(js.dump()), and then re-arms the read so the rest of the stream is
processed; the connection is not closed by the dispatch. -/
theorem registered_cmd_invokes_handler_once (reg : Registry Handler)
    (js : Json) (c : String) (h : Handler) (rest : List ReadEv)
    (hc : js.atKey "cmd" = some (Json.str c))
    (hh : findHandler reg c = some h) :
    do_dispatch reg (some js) = DispatchResult.invoke h (Json.dump js) ∧
    connLoop reg (ReadEv.line (some js) :: rest)
      = (h (Json.dump js) ++ (connLoop reg rest).1, (connLoop reg rest).2) := by
  have hd : do_dispatch reg (some js)
      = DispatchResult.invoke h (Json.dump js) := by
    simp [do_dispatch, parse_msg, hc, Json.asString, hh]
  refine ⟨hd, ?_⟩
  rw [connLoop_cons_line]
  simp [runLine, hd]

/-- Witness for C1 at the echo registry and echo message. -/
theorem registered_cmd_invokes_handler_once_witness :
    do_dispatch echoReg (some echoMsg)
      = DispatchResult.invoke echo_handler (Json.dump echoMsg) ∧
    connLoop echoReg (ReadEv.line (some echoMsg) :: [])
      = (echo_handler (Json.dump echoMsg) ++ (connLoop echoReg []).1,
         (connLoop echoReg []).2) :=
  registered_cmd_invokes_handler_once echoReg echoMsg "echo" echo_handler []
    (by rfl) (by rfl)

/-- C2: for every line that fails to parse (not valid JSON, or no cmd field
— both make parse_msg return false), the connection is sent exactly
"error: malformed" plus newline, the connection is not closed, and the read
cycle continues with the remaining stream processed unchanged. -/
theorem malformed_line_sends_error_and_continues (reg : Registry Handler)
    (decoded : Option Json) (rest : List ReadEv)
    (hp : parse_msg decoded = none) :
    runLine reg decoded = [Effect.sent "error: malformed\n"] ∧
    connLoop reg (ReadEv.line decoded :: rest)
      = (Effect.sent "error: malformed\n" :: (connLoop reg rest).1,
         (connLoop reg rest).2) := by
  have hr := runLine_malformed reg decoded hp
  refine ⟨hr, ?_⟩
  rw [connLoop_cons_line, hr]
  rfl

/-- Witness for C2: an unparseable line followed by a valid echo line; the
second line is still processed and the connection stays open. -/
theorem malformed_line_sends_error_and_continues_witness :
    runLine echoReg none = [Effect.sent "error: malformed\n"] ∧
    connLoop echoReg (ReadEv.line none :: [ReadEv.line (some echoMsg)])
      = (Effect.sent "error: malformed\n"
           :: (connLoop echoReg [ReadEv.line (some echoMsg)]).1,
         (connLoop echoReg [ReadEv.line (some echoMsg)]).2) :=
  malformed_line_sends_error_and_continues echoReg none
    [ReadEv.line (some echoMsg)] (by rfl)

/-- C3: for every well-formed line whose cmd is not a registry key, the
connection is sent exactly "error: unknown command" plus newline, no
handler is invoked (the dispatch result is unknown, not an invocation), and
reading continues. -/
theorem unknown_cmd_sends_error_and_continues (reg : Registry Handler)
    (js : Json) (c p : String) (rest : List ReadEv)
    (hp : parse_msg (some js) = some (c, p))
    (hh : findHandler reg c = none) :
    do_dispatch reg (some js) = DispatchResult.unknown ∧
    connLoop reg (ReadEv.line (some js) :: rest)
      = (Effect.sent "error: unknown command\n" :: (connLoop reg rest).1,
         (connLoop reg rest).2) := by
  have hd : do_dispatch reg (some js) = DispatchResult.unknown := by
    simp [do_dispatch, hp, hh]
  refine ⟨hd, ?_⟩
  rw [connLoop_cons_line]
  simp [runLine, hd]

/-- Witness for C3: the echo message against the empty registry. -/
theorem unknown_cmd_sends_error_and_continues_witness :
    do_dispatch ([] : Registry Handler) (some echoMsg)
      = DispatchResult.unknown ∧
    connLoop [] (ReadEv.line (some echoMsg) :: [])
      = (Effect.sent "error: unknown command\n" :: (connLoop [] []).1,
         (connLoop [] []).2) :=
  unknown_cmd_sends_error_and_continues [] echoMsg "echo" (Json.dump echoMsg)
    [] (by rfl) (by rfl)

/-- C7: add_handler is insert-or-replace with no error path: registering h1
then h2 under the same name leaves the registry mapping that name to h2
(last writer wins), whatever the previous contents were — so whether the
earlier handler came from a built-in or a plugin is irrelevant; every
subsequent dispatch of a line naming that command invokes h2. -/
theorem add_handler_last_writer_wins {H : Type} (reg : Registry H)
    (c : String) (h1 h2 : H) (js : Json)
    (hc : js.atKey "cmd" = some (Json.str c)) :
    findHandler (add_handler (add_handler reg c h1) c h2) c = some h2 ∧
    do_dispatch (add_handler (add_handler reg c h1) c h2) (some js)
      = DispatchResult.invoke h2 (Json.dump js) := by
  have hf := findHandler_add_self (add_handler reg c h1) c h2
  exact ⟨hf, by simp [do_dispatch, parse_msg, hc, Json.asString, hf]⟩

/-- Witness for C7: echo is first bound to the login handler body, then to
the echo handler; dispatch of the echo message invokes the latter. -/
theorem add_handler_last_writer_wins_witness :
    findHandler
        (add_handler (add_handler [] "echo" (login_handler acceptingStore))
          "echo" echo_handler) "echo" = some echo_handler ∧
    do_dispatch
        (add_handler (add_handler [] "echo" (login_handler acceptingStore))
          "echo" echo_handler) (some echoMsg)
      = DispatchResult.invoke echo_handler (Json.dump echoMsg) :=
  add_handler_last_writer_wins [] "echo" (login_handler acceptingStore)
    echo_handler echoMsg (by rfl)

/-- C8: the accept loop re-arms after every completion, so a failed accept
is logged and accepting continues: connections accepted before the failure
are untouched and every accept after it still yields its connection.  (The
callback in Server::do_accept calls do_accept() unconditionally; the set of
error codes that stop the loop is empty.) -/
theorem accept_error_logged_loop_continues (pre rest : List AcceptEv)
    (code : Nat) :
    do_accept (pre ++ AcceptEv.err code :: rest)
      = ((do_accept pre).1 ++ (do_accept rest).1,
         (do_accept pre).2 ++ code :: (do_accept rest).2) := by
  rw [do_accept_append]
  simp [do_accept]

/-- C10: a line that is valid JSON but not an object (at("cmd") throws), or
whose cmd field is not a JSON string (get<string>() throws), makes
parse_msg catch the exception and return false, so the connection receives
"error: malformed" plus newline exactly as for a parse failure and keeps
reading. -/
theorem non_object_or_non_string_cmd_malformed (reg : Registry Handler)
    (js : Json) (rest : List ReadEv)
    (h : js.isObj = false ∨
         ∃ v, js.atKey "cmd" = some v ∧ v.asString = none) :
    parse_msg (some js) = none ∧
    connLoop reg (ReadEv.line (some js) :: rest)
      = (Effect.sent "error: malformed\n" :: (connLoop reg rest).1,
         (connLoop reg rest).2) := by
  have hp : parse_msg (some js) = none := by
    rcases h with hobj | ⟨v, hv, hs⟩
    · simp [parse_msg, atKey_of_not_obj js "cmd" hobj]
    · simp [parse_msg, hv, hs]
  refine ⟨hp, ?_⟩
  rw [connLoop_cons_line, runLine_malformed reg _ hp]
  rfl

/-- Witness for C10: a bare number line, against the echo registry. -/
theorem non_object_or_non_string_cmd_malformed_witness :
    parse_msg (some (Json.num 5)) = none ∧
    connLoop echoReg (ReadEv.line (some (Json.num 5)) :: [])
      = (Effect.sent "error: malformed\n" :: (connLoop echoReg []).1,
         (connLoop echoReg []).2) :=
  non_object_or_non_string_cmd_malformed echoReg (Json.num 5) []
    (Or.inl (by rfl))

/-- C4 counterexample: main's plugin loop has no try/catch, so with a first
plugin whose init throws and a second that would register echo, the
exception propagates out of init_plugins (the echo plugin is never
initialized, the server never runs) and the process exits with
EXIT_FAILURE — the error is not caught-and-dropped as the claim states. -/
theorem plugin_init_throw_counterexample :
    init_plugins loginReg [badInit, goodEchoInit]
      = Except.error "init failed" ∧
    exitCodeOf (init_plugins loginReg [badInit, goodEchoInit]) ≠ 0 :=
  ⟨rfl, by decide⟩

/-- C4 amended: module-load failures (dlopen or dlsym) are logged and
skipped, so other modules still load; but an exception raised by a
plugin's init hook propagates out of the initialization loop — the
remaining plugins are not initialized — and main's top-level catch makes
the process exit with EXIT_FAILURE. -/
theorem plugin_init_throw_is_fatal (reg : Registry Handler)
    (p : PluginInitFn) (ps : List PluginInitFn) (e : String)
    (mods : List ModuleLoad)
    (hp : p reg = Except.error e) :
    init_plugins reg (p :: ps) = Except.error e ∧
    exitCodeOf (init_plugins reg (p :: ps)) = 1 ∧
    load_plugins (ModuleLoad.openFail :: mods) = load_plugins mods ∧
    load_plugins (ModuleLoad.symbolMissing :: mods) = load_plugins mods := by
  have hi : init_plugins reg (p :: ps) = Except.error e := by
    simp [init_plugins, hp]
  exact ⟨hi, by simp [hi, exitCodeOf], rfl, rfl⟩

/-- Witness for the amended C4. -/
theorem plugin_init_throw_is_fatal_witness :
    init_plugins loginReg (badInit :: [goodEchoInit])
      = Except.error "init failed" ∧
    exitCodeOf (init_plugins loginReg (badInit :: [goodEchoInit])) = 1 ∧
    load_plugins (ModuleLoad.openFail :: []) = load_plugins [] ∧
    load_plugins (ModuleLoad.symbolMissing :: []) = load_plugins [] :=
  plugin_init_throw_is_fatal loginReg badInit [goodEchoInit] "init failed" []
    (by rfl)

/-- C5 counterexample: the login handler uses the whole payload as the
token (token = payload), and the payload is the full re-serialized
envelope, so on the scenario line the store is called with key
"sess:" ++ the dumped envelope — not with set("sess:abc","valid") as the
claim states. -/
theorem login_token_counterexample :
    runLine loginReg (some loginMsg)
      = [Effect.storeSet "sess:\x7b\"cmd\":\"login\",\"token\":\"abc\"\x7d"
           "valid",
         Effect.sent "login: ok\n"] ∧
    Effect.storeSet "sess:abc" "valid" ∉ runLine loginReg (some loginMsg) :=
  ⟨rfl, by decide⟩

/-- C5 amended: on the scenario line the login handler calls the Session
Store with set("sess:" ++ payload, "valid") where payload is the full
re-serialized envelope (the token field is not extracted); if the store
accepts the write the connection receives "login: ok", otherwise
"login: fail" (each newline-terminated). -/
theorem login_uses_full_payload_as_token (accept : Bool) :
    runLine (add_handler [] "login" (login_handler (fun _ _ => accept)))
        (some loginMsg)
      = [Effect.storeSet ("sess:" ++ Json.dump loginMsg) "valid",
         Effect.sent (if accept then "login: ok\n" else "login: fail\n")] := by
  cases accept <;> rfl

/-- C6 counterexample: the echo handler replies "echo: " ++ payload, and
payload is the re-serialized envelope, so the response to the scenario
line is "echo: " followed by the dumped JSON — a string that does not
contain the text "echo: hi". -/
theorem echo_response_counterexample :
    runLine echoReg (some echoMsg)
      = [Effect.sent "echo: \x7b\"cmd\":\"echo\",\"msg\":\"hi\"\x7d\n"] ∧
    strContains "echo: \x7b\"cmd\":\"echo\",\"msg\":\"hi\"\x7d\n" "echo: hi"
      = false :=
  ⟨rfl, by decide⟩

/-- C6 amended: after the echo plugin registers its handler, the scenario
line yields the single response "echo: " ++ the re-serialized envelope ++
newline, which contains the text "hi" (inside the serialized envelope) but
not the contiguous text "echo: hi". -/
theorem echo_replies_with_serialized_envelope :
    runLine echoReg (some echoMsg)
      = [Effect.sent ("echo: " ++ Json.dump echoMsg ++ "\n")] ∧
    strContains ("echo: " ++ Json.dump echoMsg ++ "\n") "hi" = true :=
  ⟨rfl, by decide⟩

/-- C9: if the configuration file cannot be opened, is not valid JSON, or
lacks the host or port key, the error escapes configuration loading to the
top-level catch: no Server is constructed and main returns EXIT_FAILURE. -/
theorem config_error_is_fatal (cfg : ConfigFile)
    (h : cfg = ConfigFile.unopenable ∨ cfg = ConfigFile.notJson ∨
         ∃ j, cfg = ConfigFile.parsed j ∧
           (j.atKey "host" = none ∨ j.atKey "port" = none)) :
    exitCodeOf (mainStartup cfg) = 1 ∧
    ¬ ∃ sc, mainStartup cfg = Except.ok sc := by
  have herr : ∃ e, mainStartup cfg = Except.error e := by
    rcases h with h | h | ⟨j, hj, hk⟩
    · exact ⟨"Failed to open config file", by rw [h]; rfl⟩
    · exact ⟨"parse error", by rw [h]; rfl⟩
    · subst hj
      rcases hk with hh | hp
      · have hg : Config.get j "host" = Except.error "out_of_range" := by
          simp [Config.get, hh]
        exact ⟨"out_of_range",
          by simp [mainStartup, Config.load, hg, Bind.bind, Except.bind]⟩
      · have hg : Config.get j "port" = Except.error "out_of_range" := by
          simp [Config.get, hp]
        rcases hhost : Config.get j "host" with e | s
        · exact ⟨e,
            by simp [mainStartup, Config.load, hhost, Bind.bind, Except.bind]⟩
        · exact ⟨"out_of_range",
            by simp [mainStartup, Config.load, hhost, hg, Bind.bind,
              Except.bind]⟩
  obtain ⟨e, he⟩ := herr
  rw [he]
  exact ⟨rfl, fun ⟨sc, hsc⟩ => Except.noConfusion hsc⟩

/-- Witness for C9: a config document with a host but no port. -/
theorem config_error_is_fatal_witness :
    exitCodeOf
        (mainStartup (ConfigFile.parsed
          (Json.obj [("host", Json.str "127.0.0.1")]))) = 1 ∧
    ¬ ∃ sc, mainStartup (ConfigFile.parsed
          (Json.obj [("host", Json.str "127.0.0.1")])) = Except.ok sc :=
  config_error_is_fatal (ConfigFile.parsed
      (Json.obj [("host", Json.str "127.0.0.1")]))
    (Or.inr (Or.inr ⟨Json.obj [("host", Json.str "127.0.0.1")],
      rfl, Or.inr (by rfl)⟩))
